import Mathlib

/-!
Shallow embedding of the smartcatcher price-tracking core
(backend/app/services, backend/app/scrapers, worker/tasks/scraper.py)
and proofs about the frozen claims.

Money and percentage values are modelled as exact rationals (the source
uses `Decimal`; comparisons between `Decimal` and the float percentage
threshold are exact in Python, so `ℚ` is faithful for the values used).
Python truthiness (`if x:` treating `None`, `0`, `""` as false) is
modelled explicitly by the `truthy*` helpers.
-/

namespace SmartCatcher

/-- decidable equality for Except results, so concrete outcomes can be
checked by evaluation. -/
instance {ε α : Type} [DecidableEq ε] [DecidableEq α] :
    DecidableEq (Except ε α) := fun x y =>
  match x, y with
  | .error e, .error f =>
    if h : e = f then isTrue (by rw [h])
    else isFalse (by intro hh; cases hh; exact h rfl)
  | .error _, .ok _ => isFalse (by intro hh; cases hh)
  | .ok _, .error _ => isFalse (by intro hh; cases hh)
  | .ok a, .ok b =>
    if h : a = b then isTrue (by rw [h])
    else isFalse (by intro hh; cases hh; exact h rfl)

/-- Python truthiness of an optional Decimal/float: `None` and `0` are falsy. -/
def truthyQ : Option ℚ → Bool
  | none => false
  | some v => v != 0

/-- Python truthiness of an optional int: `None` and `0` are falsy. -/
def truthyNat : Option Nat → Bool
  | none => false
  | some n => n != 0

/-- Python truthiness of an optional string: `None` and `""` are falsy. -/
def truthyStr : Option String → Bool
  | none => false
  | some s => !s.isEmpty

/-- subscription_type enum from backend/app/models/subscription.py. -/
inductive SubscriptionType
  | product
  | brand
deriving DecidableEq, Repr

/-- row of the subscriptions table (backend/app/models/subscription.py),
restricted to the fields the scraper worker and services read. -/
structure Subscription where
  id : Nat
  user_id : Nat
  product_id : Option Nat
  subscription_type : SubscriptionType
  brand_name : Option String
  price_threshold : Option ℚ
  percentage_threshold : Option ℚ
  is_active : Bool
deriving DecidableEq, Repr

/-- notification row as created by NotificationService.create_notification,
restricted to the identifying fields (title/message display strings are
not modelled). -/
structure PDNotification where
  user_id : Nat
  subscription_id : Nat
  notification_type : String
  product_id : Option Nat
deriving DecidableEq, Repr

/-- SubscriptionService.get_subscriptions_for_product: all active
subscriptions whose product_id matches. -/
def get_subscriptions_for_product (subs : List Subscription) (pid : Nat) :
    List Subscription :=
  subs.filter (fun s => s.product_id == some pid && s.is_active)

/-- SubscriptionService.get_subscriptions_for_brand: all active brand-type
subscriptions whose brand_name matches. -/
def get_subscriptions_for_brand (subs : List Subscription) (bname : String) :
    List Subscription :=
  subs.filter (fun s =>
    s.brand_name == some bname && s.subscription_type == SubscriptionType.brand
      && s.is_active)

/-- per-subscription body of the loop in check_price_drop_notifications
(worker/tasks/scraper.py lines 121-152): `if subscription.price_threshold
and new_price <= subscription.price_threshold` sets type price_threshold;
`elif subscription.percentage_threshold` checks the percentage drop.
Python truthiness means a threshold equal to 0 behaves as unset. -/
def evalSubscription (pid : Nat) (old_price new_price : ℚ) (s : Subscription) :
    Option PDNotification :=
  if truthyQ s.price_threshold && decide (new_price ≤ s.price_threshold.getD 0) then
    some ⟨s.user_id, s.id, "price_threshold", some pid⟩
  else if truthyQ s.percentage_threshold then
    if decide ((old_price - new_price) / old_price * 100 ≥ s.percentage_threshold.getD 0) then
      some ⟨s.user_id, s.id, "price_drop", some pid⟩
    else none
  else none

/-- check_price_drop_notifications (worker/tasks/scraper.py lines 107-157):
returns the notifications created for one price change.  The guard is the
source's `if not old_price or new_price >= old_price: return`; the loop
runs over get_subscriptions_for_product only (no brand lookup). -/
def check_price_drop_notifications (subs : List Subscription) (pid : Nat)
    (old_price : Option ℚ) (new_price : ℚ) : List PDNotification :=
  if !truthyQ old_price || decide (new_price ≥ old_price.getD 0) then []
  else
    (get_subscriptions_for_product subs pid).filterMap
      (evalSubscription pid (old_price.getD 0) new_price)

/-- check_brand_notifications (worker/tasks/scraper.py lines 330-380):
same per-subscription rule but over the brand lookup. -/
def check_brand_notifications (subs : List Subscription) (bname : String)
    (pid : Nat) (old_price : Option ℚ) (new_price : ℚ) : List PDNotification :=
  if !truthyQ old_price || decide (new_price ≥ old_price.getD 0) then []
  else
    (get_subscriptions_for_brand subs bname).filterMap
      (evalSubscription pid (old_price.getD 0) new_price)

/-- absolute-threshold crossing as the code tests it: threshold set and
nonzero, and the new price at or below it. -/
def crossesAbs (new_price : ℚ) (s : Subscription) : Bool :=
  truthyQ s.price_threshold && decide (new_price ≤ s.price_threshold.getD 0)

/-- percentage-threshold crossing as the code tests it: threshold set and
nonzero, and the relative drop at or above it. -/
def crossesPct (old_price new_price : ℚ) (s : Subscription) : Bool :=
  truthyQ s.percentage_threshold
    && decide ((old_price - new_price) / old_price * 100 ≥ s.percentage_threshold.getD 0)

/-- a subscription crosses when either configured threshold is crossed. -/
def crossesEither (old_price new_price : ℚ) (s : Subscription) : Bool :=
  crossesAbs new_price s || crossesPct old_price new_price s

/-- notification emitted for a crossing subscription, classified with the
absolute threshold taking precedence. -/
def classifyNotification (pid : Nat) (_old_price new_price : ℚ)
    (s : Subscription) : PDNotification :=
  if crossesAbs new_price s then ⟨s.user_id, s.id, "price_threshold", some pid⟩
  else ⟨s.user_id, s.id, "price_drop", some pid⟩

/-- per-subscription rule as claim C1 literally words it: the percentage
threshold is consulted only when the absolute threshold is unset (null),
not merely uncrossed. -/
def claimedEvalC1 (pid : Nat) (old_price new_price : ℚ) (s : Subscription) :
    Option PDNotification :=
  if s.price_threshold.isSome then
    if decide (new_price ≤ s.price_threshold.getD 0) then
      some ⟨s.user_id, s.id, "price_threshold", some pid⟩
    else none
  else if s.percentage_threshold.isSome then
    if decide ((old_price - new_price) / old_price * 100 ≥ s.percentage_threshold.getD 0) then
      some ⟨s.user_id, s.id, "price_drop", some pid⟩
    else none
  else none

/-- evaluator as claim C1 literally words it (no-op guard as stated:
old price absent or no decrease). -/
def claimedCheckC1 (subs : List Subscription) (pid : Nat)
    (old_price : Option ℚ) (new_price : ℚ) : List PDNotification :=
  match old_price with
  | none => []
  | some o =>
    if decide (new_price ≥ o) then []
    else
      (get_subscriptions_for_product subs pid).filterMap
        (claimedEvalC1 pid o new_price)

/-- evaluator as claim C4 words it: dual lookup over product subscriptions
plus brand subscriptions matching the product's brand, per-subscription
rule as in the code. -/
def claimedDualLookupCheck (subs : List Subscription) (pid : Nat)
    (pbrand : Option String) (old_price : Option ℚ) (new_price : ℚ) :
    List PDNotification :=
  if !truthyQ old_price || decide (new_price ≥ old_price.getD 0) then []
  else
    (get_subscriptions_for_product subs pid
        ++ (match pbrand with
            | some b => get_subscriptions_for_brand subs b
            | none => [])).filterMap
      (evalSubscription pid (old_price.getD 0) new_price)

/-! ### Batch scan model (worker/tasks/scraper.py, async_check_all_product_prices) -/

/-- scraped payload as the batch loop consumes it (ScrapedProduct fields
price and currency from backend/app/scrapers/base.py). -/
structure ScrapedLite where
  price : Option ℚ
  currency : String
deriving DecidableEq, Repr

/-- outcome of the per-product try-block stages: adapter resolution error
(get_scraper_for_url raises), scrape error (scrape_product raises), or a
scrape result, with a flag for update_price raising during persistence. -/
inductive ScanOutcome
  | failResolve
  | failScrape
  | scraped (data : ScrapedLite) (persistFails : Bool)
deriving DecidableEq, Repr

/-- one product of a batch together with how its processing unfolds. -/
structure ProductScan where
  pid : Nat
  current_price : Option ℚ
  outcome : ScanOutcome
deriving DecidableEq, Repr

/-- observable side effects of the batch loop.  `notifyEval` stands for a
call to check_price_drop_notifications; the faithful model below never
emits it because the call at worker/tasks/scraper.py lines 81-84 is
commented out in the source. -/
inductive ScanEvent
  | updatePrice (pid : Nat) (price : ℚ) (currency : String)
  | notifyEval (pid : Nat) (old_price : Option ℚ) (new_price : ℚ)
  | markScraped (pid : Nat)
deriving DecidableEq, Repr

/-- comparison at worker/tasks/scraper.py line 68:
`if scraped_data.price and scraped_data.price != product.current_price`.
Truthiness makes a scraped price of 0 behave like a missing price. -/
def priceChanged (scraped stored : Option ℚ) : Bool :=
  truthyQ scraped && scraped != stored

/-- body of the per-product try-block (worker/tasks/scraper.py lines
60-97).  Returns none when an exception is caught by the `except` clause
(the loop then continues), otherwise the events performed and whether the
price was updated.  No notifyEval event is produced: the evaluator call
is commented out in the source. -/
def processProduct (p : ProductScan) : Option (List ScanEvent × Bool) :=
  match p.outcome with
  | .failResolve => none
  | .failScrape => none
  | .scraped data persistFails =>
    if priceChanged data.price p.current_price then
      if persistFails then none
      else
        some ([ScanEvent.updatePrice p.pid (data.price.getD 0) data.currency,
               ScanEvent.markScraped p.pid], true)
    else some ([ScanEvent.markScraped p.pid], false)

/-- result of async_check_all_product_prices: the returned
`{"checked": ..., "updated": ...}` dict plus the recorded side effects. -/
structure BatchResult where
  checked : Nat
  updated : Nat
  events : List ScanEvent
deriving DecidableEq, Repr

/-- folding step of the batch loop. -/
def batchStep (acc : BatchResult) (p : ProductScan) : BatchResult :=
  match processProduct p with
  | none => acc
  | some (evs, didUpdate) =>
    { checked := acc.checked + 1,
      updated := acc.updated + (if didUpdate then 1 else 0),
      events := acc.events ++ evs }

/-- async_check_all_product_prices (worker/tasks/scraper.py lines 44-100)
over an already-selected batch of products: a total function — a failing
product is skipped, never aborts the batch. -/
def async_check_all_product_prices (ps : List ProductScan) : BatchResult :=
  ps.foldl batchStep ⟨0, 0, []⟩

/-- comparison step as claim C5 words it: changed iff the scraped price is
non-null and numerically different from the stored price. -/
def claimedChanged (scraped stored : Option ℚ) : Bool :=
  scraped.isSome && scraped != stored

/-! ### Relational store model (backend/app/services/product.py) -/

/-- row of the products table, restricted to the fields the services read. -/
structure ProductRow where
  id : Nat
  url : String
  title : String
  brand : Option String
  current_price : Option ℚ
  currency : String
  store_name : String
  is_active : Bool
deriving DecidableEq, Repr

/-- row of the price_history table. -/
structure PriceHistoryRow where
  product_id : Nat
  price : ℚ
  currency : String
deriving DecidableEq, Repr

/-- durable state touched by ProductService. -/
structure DBState where
  products : List ProductRow
  history : List PriceHistoryRow
deriving DecidableEq, Repr

/-- ProductService.get_by_id. -/
def get_by_id (st : DBState) (pid : Nat) : Option ProductRow :=
  st.products.find? (fun p => p.id == pid)

/-- ProductService.update_price (backend/app/services/product.py lines
167-192): raise if the product is missing (no state change), otherwise set
current_price and currency, append one history row, and commit both in
the one session.commit() — a single transition in this model. -/
def update_price (st : DBState) (pid : Nat) (new_price : ℚ) (currency : String) :
    Except String DBState :=
  match get_by_id st pid with
  | none => .error "Product not found"
  | some _ =>
    .ok ⟨st.products.map (fun p =>
           if p.id == pid then
             { p with current_price := some new_price, currency := currency }
           else p),
         st.history ++ [⟨pid, new_price, currency⟩]⟩

/-! ### Character and string helpers (Python str semantics) -/

/-- whitespace characters removed by Python str.strip(). -/
def pySpace (c : Char) : Bool :=
  c = ' ' || c = '\t' || c = '\n' || c = '\r' || c = '\x0b' || c = '\x0c'

/-- Python str.strip(): drop whitespace from both ends. -/
def pyStrip (l : List Char) : List Char :=
  ((l.dropWhile pySpace).reverse.dropWhile pySpace).reverse

/-- Python str.lower() for the ASCII range used by the URLs here. -/
def pyLower (l : List Char) : List Char :=
  l.map Char.toLower

/-- list-prefix test written out (Python startswith). -/
def startsWith : List Char → List Char → Bool
  | [], _ => true
  | _ :: _, [] => false
  | p :: ps, t :: ts => p == t && startsWith ps ts

/-- Python `pat in text` substring test. -/
def isSubstring (pat : List Char) : List Char → Bool
  | [] => pat.isEmpty
  | c :: rest => startsWith pat (c :: rest) || isSubstring pat rest

/-- URL normalization applied by ProductService: `url.strip().lower()`. -/
def normalize_url (s : String) : String :=
  String.mk (pyLower (pyStrip s.data))

/-! ### Source router (backend/app/scrapers/__init__.py) -/

/-- registered adapters; `webScraper` stands for WebScraperIOScraper. -/
inductive ScraperId
  | demo
  | webScraper
  | ebay
  | etsy
deriving DecidableEq, Repr

/-- can_handle_url of each adapter, from backend/app/scrapers/demo.py,
webscraper_io.py, ebay.py, etsy.py.  Only demo strips and lower-cases the
URL before matching; the other three are case-sensitive substring tests. -/
def can_handle_url : ScraperId → String → Bool
  | .demo, url => isSubstring "demo-server".data (pyLower (pyStrip url.data))
  | .webScraper, url => isSubstring "webscraper.io".data url.data
  | .ebay, url =>
    isSubstring "ebay.com".data url.data || isSubstring "ebay.".data url.data
  | .etsy, url => isSubstring "etsy.com".data url.data

/-- registration order of the SCRAPERS list. -/
def SCRAPERS : List ScraperId := [.demo, .webScraper, .ebay, .etsy]

/-- position of an adapter in the registration order. -/
def scraperIdx : ScraperId → Nat
  | .demo => 0
  | .webScraper => 1
  | .ebay => 2
  | .etsy => 3

/-- get_scraper_for_url (backend/app/scrapers/__init__.py lines 18-23):
first adapter whose predicate accepts, ValueError when none does. -/
def get_scraper_for_url (url : String) : Except String ScraperId :=
  match SCRAPERS.find? (fun a => can_handle_url a url) with
  | some a => .ok a
  | none => .error "No scraper found"

/-- adapter predicates as claim C7 describes them: a case-normalized
substring match on the URL, for every adapter. -/
def claimedCanHandle : ScraperId → String → Bool
  | .demo, url => isSubstring "demo-server".data (pyLower url.data)
  | .webScraper, url => isSubstring "webscraper.io".data (pyLower url.data)
  | .ebay, url =>
    isSubstring "ebay.com".data (pyLower url.data)
      || isSubstring "ebay.".data (pyLower url.data)
  | .etsy, url => isSubstring "etsy.com".data (pyLower url.data)

/-! ### Price text parsing (backend/app/scrapers/base.py, parse_price) -/

/-- currency_map of BaseScraper.parse_price, in dict insertion order. -/
def currencySymbols : List (Char × String) :=
  [('$', "USD"), ('€', "EUR"), ('£', "GBP"), ('¥', "JPY"), ('₽', "RUB")]

/-- cleaning step of parse_price:
`price_text.strip().replace(",", "").replace("\n", " ")`. -/
def cleanPriceText (l : List Char) : List Char :=
  ((pyStrip l).filter (fun c => c ≠ ',')).map (fun c => if c = '\n' then ' ' else c)

/-- currency-symbol loop of parse_price: iterate the map in insertion
order and take the first symbol occurring anywhere in the text
(`if symbol in price_text`). -/
def findCurrency : List (Char × String) → List Char → Option (Char × String)
  | [], _ => none
  | (sym, code) :: rest, text =>
    if sym ∈ text then some (sym, code) else findCurrency rest text

/-- numeric value of a digit character. -/
def digitVal (c : Char) : Nat := c.toNat - '0'.toNat

/-- natural number denoted by a digit run. -/
def natOfDigits (l : List Char) : Nat :=
  l.foldl (fun acc c => acc * 10 + digitVal c) 0

/-- leftmost match of the pattern `(\d+\.?\d*)` interpreted as a Decimal:
scan to the first digit, take the maximal digit run, then an optional dot
followed by a maximal digit run (empty when there is no dot, contributing
zero). -/
def extractNumber : List Char → Option ℚ
  | [] => none
  | c :: rest =>
    if c.isDigit then
      let intPart := (c :: rest).takeWhile Char.isDigit
      let rest' := (c :: rest).dropWhile Char.isDigit
      let fracPart :=
        if rest'.head? = some '.' then rest'.tail.takeWhile Char.isDigit else []
      some ((natOfDigits intPart : ℚ)
        + (natOfDigits fracPart : ℚ) / ((10 : ℚ) ^ fracPart.length))
    else extractNumber rest

/-- BaseScraper.parse_price (backend/app/scrapers/base.py lines 163-199).
Empty input short-circuits (`if not price_text`); otherwise the text is
cleaned, the first map-order symbol found sets the currency and is removed
(followed by a strip), and the number is extracted; the default currency
is USD.  Total by construction: the source never raises here. -/
def parse_price (s : String) : Option ℚ × String :=
  if s.data.isEmpty then (none, "USD")
  else
    let text := cleanPriceText s.data
    match findCurrency currencySymbols text with
    | some (sym, code) =>
      (extractNumber (pyStrip (text.filter (fun c => c ≠ sym))), code)
    | none => (extractNumber text, "USD")

/-- currency selection as claim C6 words it: the first known symbol found
anywhere in the text — leftmost occurrence — wins, default USD. -/
def leftmostSymbolCurrency (l : List Char) : String :=
  match l.find? (fun c => currencySymbols.any (fun p => p.1 == c)) with
  | some c => ((currencySymbols.find? (fun p => p.1 == c)).map Prod.snd).getD "USD"
  | none => "USD"

/-- currency selection as the source implements it, stated directly over
the raw input: the first symbol in the fixed order $, €, £, ¥, ₽ that
occurs anywhere in the text, default USD. -/
def priorityCurrency (l : List Char) : String :=
  ((currencySymbols.find? (fun p => decide (p.1 ∈ l))).map Prod.snd).getD "USD"

/-! ### ProductService.create (backend/app/services/product.py lines 27-77) -/

/-- ALLOWED_STORE_DOMAINS from backend/app/services/product.py. -/
def ALLOWED_STORE_DOMAINS : List String :=
  ["ebay.com", "ebay.de", "etsy.com", "example.com", "demo.com"]

/-- payload of ProductCreate (backend/app/schemas/product.py), restricted
to the fields ProductService.create reads. -/
structure ProductCreateData where
  url : String
  title : String
  brand : Option String
  current_price : Option ℚ
  currency : String
  store_name : String
deriving DecidableEq, Repr

/-- remainder of the input after its first "//", if any. -/
def afterDoubleSlash : List Char → Option (List Char)
  | [] => none
  | [_] => none
  | '/' :: '/' :: rest => some rest
  | _ :: rest => afterDoubleSlash rest

/-- urlparse(url).hostname for the scheme://netloc/path shape the service
receives: the netloc runs from after "//" to the next /, ? or #; userinfo
before '@' and a :port suffix are dropped; empty hostname is None;
urlparse lower-cases the hostname. -/
def extract_hostname (l : List Char) : Option (List Char) :=
  match afterDoubleSlash l with
  | none => none
  | some after =>
    let netloc := after.takeWhile (fun c => c ≠ '/' && c ≠ '?' && c ≠ '#')
    let host1 := if netloc.contains '@'
      then (netloc.reverse.takeWhile (fun c => c ≠ '@')).reverse
      else netloc
    let host := host1.takeWhile (fun c => c ≠ ':')
    if host.isEmpty then none else some (pyLower host)

/-- ProductService.create: normalize the URL, return any existing product
with that URL unchanged before any validation; otherwise validate
hostname, store domain, price, currency and store name, then insert the
product and its first price-history row in one commit.  A null
current_price reaches `None <= 0`, which raises TypeError in Python,
modelled as an error. -/
def product_create (st : DBState) (nextId : Nat) (d : ProductCreateData) :
    Except String (DBState × ProductRow) :=
  let url := normalize_url d.url
  match st.products.find? (fun p => p.url == url) with
  | some p => .ok (st, p)
  | none =>
    match extract_hostname url.data with
    | none => .error "Invalid URL"
    | some host0 =>
      let host := if startsWith "www.".data host0 then host0.drop 4 else host0
      if !(ALLOWED_STORE_DOMAINS.contains (String.mk host)) then
        .error "Store domain is not allowed"
      else
        match d.current_price with
        | none => .error "TypeError"
        | some pr =>
          if pr ≤ 0 then .error "Price must be greater than 0"
          else if !(["USD", "EUR", "GBP"].contains d.currency) then
            .error "Currency must be USD, EUR, or GBP"
          else if d.store_name.isEmpty then .error "Store name is required"
          else
            let row : ProductRow :=
              ⟨nextId, url, d.title, d.brand, some pr, d.currency,
               d.store_name, true⟩
            .ok (⟨st.products ++ [row], st.history ++ [⟨nextId, pr, d.currency⟩]⟩,
                 row)

/-! ### Subscription creation and mutation
(backend/app/schemas/subscription.py, backend/app/services/subscription.py) -/

/-- payload of SubscriptionCreate (backend/app/schemas/subscription.py). -/
structure SubscriptionCreate where
  subscription_type : SubscriptionType
  price_threshold : Option ℚ
  percentage_threshold : Option ℚ
  product_url : Option String
  product_id : Option Nat
  brand_name : Option String
deriving DecidableEq, Repr

/-- model validators of SubscriptionCreate, in declaration order:
validate_subscription_target then at_least_one_threshold.  All emptiness
tests are Python truthiness. -/
def validate_subscription_create (d : SubscriptionCreate) : Except String Unit :=
  match d.subscription_type with
  | .product =>
    if !truthyNat d.product_id && !truthyStr d.product_url then
      .error "product_id or product_url must be provided"
    else if truthyStr d.brand_name then
      .error "brand_name should not be set for product-type subscriptions"
    else if !truthyQ d.price_threshold && !truthyQ d.percentage_threshold then
      .error "price_threshold or percentage_threshold must be provided"
    else .ok ()
  | .brand =>
    if !truthyStr d.brand_name then
      .error "brand_name is required"
    else if truthyNat d.product_id || truthyStr d.product_url then
      .error "product_id and product_url should not be set"
    else if !truthyQ d.price_threshold && !truthyQ d.percentage_threshold then
      .error "price_threshold or percentage_threshold must be provided"
    else .ok ()

/-- SubscriptionService.create_subscription (lines 21-66), applied after
schema validation; st is consulted for the product-by-URL lookup. -/
def create_subscription_service (st : DBState) (nextId user_id : Nat)
    (d : SubscriptionCreate) : Except String Subscription :=
  match d.subscription_type with
  | .product =>
    match (if truthyStr d.product_url && !truthyNat d.product_id then
             match st.products.find?
                 (fun p => p.url == normalize_url (d.product_url.getD "")) with
             | none => Except.error "Product not found"
             | some p => Except.ok (some p.id)
           else Except.ok d.product_id) with
    | .error e => .error e
    | .ok pid =>
      .ok ⟨nextId, user_id, pid, SubscriptionType.product, none,
           d.price_threshold, d.percentage_threshold, true⟩
  | .brand =>
    .ok ⟨nextId, user_id, none, SubscriptionType.brand, d.brand_name,
         d.price_threshold, d.percentage_threshold, true⟩

/-- creation path as the API exercises it: pydantic validation of the
request body, then the service. -/
def create_subscription_api (st : DBState) (nextId user_id : Nat)
    (d : SubscriptionCreate) : Except String Subscription :=
  match validate_subscription_create d with
  | .error e => .error e
  | .ok _ => create_subscription_service st nextId user_id d

/-- payload of SubscriptionUpdate with pydantic exclude_unset semantics:
an outer none means the field was absent from the request; `some none`
means the field was explicitly null in the request body. -/
structure SubscriptionUpdate where
  price_threshold : Option (Option ℚ)
  percentage_threshold : Option (Option ℚ)
  is_active : Option Bool
deriving DecidableEq, Repr

/-- SubscriptionService.update (lines 101-115): setattr of every provided
field, no validation. -/
def update_subscription (subs : List Subscription) (sid : Nat)
    (u : SubscriptionUpdate) : Except String (List Subscription × Subscription) :=
  match subs.find? (fun s => s.id == sid) with
  | none => .error "Subscription not found"
  | some s =>
    let s' : Subscription :=
      { s with
        price_threshold := u.price_threshold.getD s.price_threshold,
        percentage_threshold := u.percentage_threshold.getD s.percentage_threshold,
        is_active := u.is_active.getD s.is_active }
    .ok (subs.map (fun t => if t.id == sid then s' else t), s')

/-- SubscriptionService.delete (lines 117-125): soft delete by flipping
is_active. -/
def delete_subscription (subs : List Subscription) (sid : Nat) :
    List Subscription × Bool :=
  match subs.find? (fun s => s.id == sid) with
  | none => (subs, false)
  | some _ =>
    (subs.map (fun t => if t.id == sid then { t with is_active := false } else t),
     true)

/-- target half of the claim C9 invariant: exactly one of product_id and
brand_name is set, matching the subscription type. -/
def targetOk (s : Subscription) : Bool :=
  match s.subscription_type with
  | .product => s.product_id.isSome && s.brand_name == none
  | .brand => s.brand_name.isSome && s.product_id == none

/-- the claim C9 invariant: target exclusivity plus at least one non-null
threshold. -/
def subscriptionInvariant (s : Subscription) : Bool :=
  targetOk s && (s.price_threshold.isSome || s.percentage_threshold.isSome)

/-! ### Shared helper lemmas -/

lemma filterMap_ite_eq_map_filter {α β : Type} (p : α → Bool) (g : α → β) :
    ∀ l : List α,
      (l.filterMap fun a => if p a then some (g a) else none) = (l.filter p).map g := by
  intro l
  induction l with
  | nil => rfl
  | cons a t ih =>
    by_cases h : p a = true <;>
      simp [List.filterMap_cons, List.filter_cons, h, ih]

lemma evalSubscription_eq_ite (pid : Nat) (o new_price : ℚ) (s : Subscription) :
    evalSubscription pid o new_price s =
      if crossesEither o new_price s then
        some (classifyNotification pid o new_price s)
      else none := by
  unfold evalSubscription crossesEither classifyNotification crossesAbs crossesPct
  cases h1 : truthyQ s.price_threshold <;>
    cases h2 : decide (new_price ≤ s.price_threshold.getD 0) <;>
      cases h3 : truthyQ s.percentage_threshold <;>
        cases h4 : decide ((o - new_price) / o * 100 ≥ s.percentage_threshold.getD 0) <;>
          simp [h1, h2, h3, h4]

lemma evalSubscription_some_id (pid : Nat) (o new_price : ℚ) (s : Subscription)
    (n : PDNotification) (h : evalSubscription pid o new_price s = some n) :
    n.subscription_id = s.id := by
  unfold evalSubscription at h
  split_ifs at h <;> cases h <;> rfl

/-! ### Claim C1 -/

/-- C1, counterexample.  The source falls back to the percentage threshold
whenever the absolute-threshold condition is false (`elif`), not only when
the absolute threshold is unset: for a subscription with
price_threshold = 10 and percentage_threshold = 50, a drop from 100 to 40
produces one price_drop notification, while the claim's stated precedence
rule produces none. -/
theorem C1_counterexample :
    check_price_drop_notifications
        [⟨1, 7, some 1, SubscriptionType.product, none, some 10, some 50, true⟩]
        1 (some 100) 40 =
      [⟨7, 1, "price_drop", some 1⟩] ∧
    claimedCheckC1
        [⟨1, 7, some 1, SubscriptionType.product, none, some 10, some 50, true⟩]
        1 (some 100) 40 = [] := by
  constructor
  · norm_num [check_price_drop_notifications, get_subscriptions_for_product,
      evalSubscription, truthyQ, List.filter_cons, List.filterMap_cons]
  · decide

/-- C1, amended: the evaluator is a no-op when the old price is absent
(or zero, which Python truthiness treats as absent) or the new price is
not strictly lower; otherwise, over the active matching product
subscriptions, it falls back to the percentage threshold whenever the
absolute condition fails (threshold unset, zero, or not crossed), and
emits exactly one notification per subscription crossing either
configured threshold — classified price_threshold when the absolute
threshold is crossed, price_drop otherwise — and none for the rest. -/
theorem C1_price_drop_evaluator :
    (∀ (subs : List Subscription) (pid : Nat) (new_price : ℚ),
        check_price_drop_notifications subs pid none new_price = []) ∧
    (∀ (subs : List Subscription) (pid : Nat) (o new_price : ℚ),
        o ≤ new_price →
        check_price_drop_notifications subs pid (some o) new_price = []) ∧
    (∀ (subs : List Subscription) (pid : Nat) (o new_price : ℚ),
        0 < o → new_price < o →
        check_price_drop_notifications subs pid (some o) new_price =
          ((get_subscriptions_for_product subs pid).filter
              (crossesEither o new_price)).map
            (classifyNotification pid o new_price)) := by
  refine ⟨?_, ?_, ?_⟩
  · intro subs pid new_price
    simp [check_price_drop_notifications, truthyQ]
  · intro subs pid o new_price h
    simp [check_price_drop_notifications, ge_iff_le, h]
  · intro subs pid o new_price ho hn
    have hcond : (!truthyQ (some o)
        || decide (new_price ≥ (Option.getD (some o) 0))) = false := by
      simp [truthyQ, Option.getD]
      exact ⟨ne_of_gt ho, hn⟩
    unfold check_price_drop_notifications
    rw [hcond]
    simp only [Bool.false_eq_true, if_false]
    rw [show (evalSubscription pid ((some o : Option ℚ).getD 0) new_price) =
          (fun s => if crossesEither o new_price s then
            some (classifyNotification pid o new_price s) else none) from
        funext fun s => evalSubscription_eq_ite pid o new_price s]
    exact filterMap_ite_eq_map_filter _ _ _

/-- C1, witness at the spec's own worked example: old 100, new 75, one
subscription with price_threshold 80 yields one price_threshold intent. -/
theorem C1_witness :
    check_price_drop_notifications
        [⟨1, 7, some 1, SubscriptionType.product, none, some 80, none, true⟩]
        1 (some 100) 75 =
      [⟨7, 1, "price_threshold", some 1⟩] := by
  rw [C1_price_drop_evaluator.2.2 _ 1 100 75 (by norm_num) (by norm_num)]
  decide

/-! ### Claim C4 -/

/-- C4, counterexample.  check_price_drop_notifications performs only the
product-subscription lookup: with a single active brand subscription on
the product's brand (threshold 50) and a drop from 100 to 40, the code
creates no notification, while the claimed dual lookup would create one. -/
theorem C4_counterexample :
    check_price_drop_notifications
        [⟨2, 9, none, SubscriptionType.brand, some "Acme", some 50, none, true⟩]
        1 (some 100) 40 = [] ∧
    claimedDualLookupCheck
        [⟨2, 9, none, SubscriptionType.brand, some "Acme", some 50, none, true⟩]
        1 (some "Acme") (some 100) 40 =
      [⟨9, 2, "price_threshold", some 1⟩] := by
  decide

/-- C4, amended: the price-drop evaluator considers only active
subscriptions whose product_id matches — every notification it emits
comes from such a subscription — and brand watchers are reached only by
the separate check_brand_notifications path, every notification of which
comes from an active brand subscription matching the brand name. -/
theorem C4_single_lookup :
    (∀ (subs : List Subscription) (pid : Nat) (old_price : Option ℚ)
        (new_price : ℚ) (n : PDNotification),
        n ∈ check_price_drop_notifications subs pid old_price new_price →
        ∃ s, s ∈ subs ∧ n.subscription_id = s.id ∧
          s.product_id = some pid ∧ s.is_active = true) ∧
    (∀ (subs : List Subscription) (bname : String) (pid : Nat)
        (old_price : Option ℚ) (new_price : ℚ) (n : PDNotification),
        n ∈ check_brand_notifications subs bname pid old_price new_price →
        ∃ s, s ∈ subs ∧ n.subscription_id = s.id ∧
          s.brand_name = some bname ∧
          s.subscription_type = SubscriptionType.brand ∧ s.is_active = true) := by
  constructor
  · intro subs pid old_price new_price n hmem
    unfold check_price_drop_notifications at hmem
    split at hmem
    · simp at hmem
    · rcases List.mem_filterMap.mp hmem with ⟨s, hs, hev⟩
      simp only [get_subscriptions_for_product, List.mem_filter, Bool.and_eq_true,
        beq_iff_eq] at hs
      exact ⟨s, hs.1, evalSubscription_some_id _ _ _ _ _ hev, hs.2.1, hs.2.2⟩
  · intro subs bname pid old_price new_price n hmem
    unfold check_brand_notifications at hmem
    split at hmem
    · simp at hmem
    · rcases List.mem_filterMap.mp hmem with ⟨s, hs, hev⟩
      simp only [get_subscriptions_for_brand, List.mem_filter, Bool.and_eq_true,
        beq_iff_eq] at hs
      exact ⟨s, hs.1, evalSubscription_some_id _ _ _ _ _ hev,
        hs.2.1.1, hs.2.1.2, hs.2.2⟩

/-- C4, witness: a product subscription that fires is traced back to a
matching active subscription in the table. -/
theorem C4_witness :
    ∃ s, s ∈ ([⟨3, 8, some 2, SubscriptionType.product, none, some 90, none, true⟩] :
        List Subscription) ∧
      (⟨8, 3, "price_threshold", some 2⟩ : PDNotification).subscription_id = s.id ∧
      s.product_id = some 2 ∧ s.is_active = true :=
  C4_single_lookup.1 _ 2 (some 100) 80 _ (by decide)

/-! ### Batch-scan lemmas -/

/-- a product step that updated the price. -/
def productUpdated (p : ProductScan) : Bool :=
  match processProduct p with
  | some (_, true) => true
  | _ => false

lemma batch_foldl_checked (ps : List ProductScan) :
    ∀ acc : BatchResult, (ps.foldl batchStep acc).checked =
      acc.checked + ps.countP (fun p => (processProduct p).isSome) := by
  induction ps with
  | nil => intro acc; simp
  | cons p t ih =>
    intro acc
    rw [List.foldl_cons, ih]
    unfold batchStep
    cases h : processProduct p with
    | none => simp [List.countP_cons, h]
    | some v =>
      simp only [List.countP_cons, h, Option.isSome_some, if_true]
      omega

lemma batch_foldl_updated (ps : List ProductScan) :
    ∀ acc : BatchResult, (ps.foldl batchStep acc).updated =
      acc.updated + ps.countP productUpdated := by
  induction ps with
  | nil => intro acc; simp
  | cons p t ih =>
    intro acc
    rw [List.foldl_cons, ih]
    unfold batchStep productUpdated
    cases h : processProduct p with
    | none => simp [List.countP_cons, h, productUpdated]
    | some v =>
      obtain ⟨evs, b⟩ := v
      cases b
      · simp [List.countP_cons, h, productUpdated]
      · simp only [List.countP_cons, h, if_true]
        omega

lemma batch_events_mono (ps : List ProductScan) :
    ∀ (acc : BatchResult) (e : ScanEvent), e ∈ acc.events →
      e ∈ (ps.foldl batchStep acc).events := by
  induction ps with
  | nil => intro acc e h; simpa using h
  | cons p t ih =>
    intro acc e h
    rw [List.foldl_cons]
    apply ih
    unfold batchStep
    cases hp : processProduct p with
    | none => exact h
    | some v => exact List.mem_append.mpr (Or.inl h)

lemma processProduct_mark :
    ∀ (p : ProductScan) (evs : List ScanEvent) (b : Bool),
      processProduct p = some (evs, b) →
      ScanEvent.markScraped p.pid ∈ evs := by
  rintro ⟨pid, cp, outc⟩ evs b h
  cases outc with
  | failResolve => simp [processProduct] at h
  | failScrape => simp [processProduct] at h
  | scraped data persistFails =>
    unfold processProduct at h
    dsimp only at h
    split_ifs at h <;> cases h <;> simp

lemma batch_mark (ps : List ProductScan) :
    ∀ (acc : BatchResult) (p : ProductScan), p ∈ ps →
      (processProduct p).isSome = true →
      ScanEvent.markScraped p.pid ∈ (ps.foldl batchStep acc).events := by
  induction ps with
  | nil => intro acc p h; simp at h
  | cons q t ih =>
    intro acc p hmem hsome
    rcases List.mem_cons.mp hmem with rfl | ht
    · rw [List.foldl_cons]
      apply batch_events_mono
      unfold batchStep
      cases hq : processProduct p with
      | none => rw [hq] at hsome; simp at hsome
      | some v =>
        obtain ⟨evs, b⟩ := v
        exact List.mem_append.mpr (Or.inr (processProduct_mark p evs b hq))
    · rw [List.foldl_cons]
      exact ih _ p ht hsome

/-! ### Claim C2 -/

/-- C2, code bug.  In the batch scan a price change is accepted
(update_price runs, updated = 1) yet the notification evaluator is
invoked zero times, not once: the call to check_price_drop_notifications
at worker/tasks/scraper.py lines 81-84 is commented out with a TODO, so
the faithful model emits no notifyEval event for the accepted change. -/
theorem C2_evaluator_never_invoked :
    async_check_all_product_prices
        [⟨1, some 100, ScanOutcome.scraped ⟨some 80, "USD"⟩ false⟩] =
      ⟨1, 1, [ScanEvent.updatePrice 1 80 "USD", ScanEvent.markScraped 1]⟩ ∧
    (async_check_all_product_prices
        [⟨1, some 100, ScanOutcome.scraped ⟨some 80, "USD"⟩ false⟩]).events.countP
        (fun e => match e with
          | ScanEvent.notifyEval _ _ _ => true
          | _ => false) = 0 := by
  decide

/-! ### Claim C5 -/

/-- C5, counterexample.  The comparison at worker/tasks/scraper.py line 68
is `if scraped_data.price and ...`: a scraped price of 0 is falsy, so with
stored price 5 and scraped price 0 the claim's "non-null and different"
test says changed while the code persists nothing (no updatePrice, the
product is only marked as scraped). -/
theorem C5_counterexample :
    claimedChanged (some 0) (some 5) = true ∧
    priceChanged (some 0) (some 5) = false ∧
    async_check_all_product_prices
        [⟨1, some 5, ScanOutcome.scraped ⟨some 0, "USD"⟩ false⟩] =
      ⟨1, 0, [ScanEvent.markScraped 1]⟩ := by
  decide

/-- C5, amended: a scan persists (updates the price and appends history)
iff the scraped price is non-null, non-zero and numerically different
from the stored current_price; a null stored price with a non-null
non-zero scraped price counts as changed, and an unchanged or null (or
zero) scraped price persists nothing. -/
theorem C5_change_detection :
    (∀ scraped stored : Option ℚ,
        priceChanged scraped stored = true ↔
          ∃ v, scraped = some v ∧ v ≠ 0 ∧ some v ≠ stored) ∧
    (∀ v : ℚ, priceChanged (some v) none = (v != 0)) ∧
    (∀ (pid : Nat) (stored : Option ℚ) (d : ScrapedLite),
        (∃ c cur, ScanEvent.updatePrice pid c cur ∈
            (async_check_all_product_prices
              [⟨pid, stored, ScanOutcome.scraped d false⟩]).events) ↔
          priceChanged d.price stored = true) := by
  refine ⟨?_, ?_, ?_⟩
  · intro scraped stored
    cases scraped with
    | none => simp [priceChanged, truthyQ]
    | some v =>
      simp only [priceChanged, truthyQ, Bool.and_eq_true, bne_iff_ne, ne_eq,
        Option.some.injEq]
      constructor
      · rintro ⟨h1, h2⟩; exact ⟨v, rfl, h1, h2⟩
      · rintro ⟨w, hw, h1, h2⟩; cases hw; exact ⟨h1, h2⟩
  · intro v
    simp [priceChanged, truthyQ]
  · intro pid stored d
    cases h : priceChanged d.price stored <;>
      simp [async_check_all_product_prices, batchStep, processProduct, h]

/-! ### Claim C8 -/

/-- C8, confirmed: the batch scan is a total function (a per-product error
is caught and the loop continues), checked counts exactly the products
whose processing succeeded, updated counts exactly the accepted changes,
every successfully processed product is marked as scraped, and the
spec's 5-product example with product #3 failing returns checked = 4. -/
theorem C8_partial_failure_isolation :
    (∀ ps : List ProductScan,
        (async_check_all_product_prices ps).checked =
          ps.countP (fun p => (processProduct p).isSome) ∧
        (async_check_all_product_prices ps).updated = ps.countP productUpdated) ∧
    (∀ (ps : List ProductScan) (p : ProductScan), p ∈ ps →
        (processProduct p).isSome = true →
        ScanEvent.markScraped p.pid ∈ (async_check_all_product_prices ps).events) ∧
    ((async_check_all_product_prices
        [⟨1, some 100, ScanOutcome.scraped ⟨some 100, "USD"⟩ false⟩,
         ⟨2, none, ScanOutcome.scraped ⟨some 5, "USD"⟩ false⟩,
         ⟨3, some 1, ScanOutcome.failScrape⟩,
         ⟨4, some 2, ScanOutcome.scraped ⟨some 3, "USD"⟩ false⟩,
         ⟨5, some 4, ScanOutcome.scraped ⟨some 4, "EUR"⟩ false⟩]).checked = 4 ∧
     (async_check_all_product_prices
        [⟨1, some 100, ScanOutcome.scraped ⟨some 100, "USD"⟩ false⟩,
         ⟨2, none, ScanOutcome.scraped ⟨some 5, "USD"⟩ false⟩,
         ⟨3, some 1, ScanOutcome.failScrape⟩,
         ⟨4, some 2, ScanOutcome.scraped ⟨some 3, "USD"⟩ false⟩,
         ⟨5, some 4, ScanOutcome.scraped ⟨some 4, "EUR"⟩ false⟩]).updated = 2) := by
  refine ⟨?_, ?_, by decide⟩
  · intro ps
    constructor
    · simpa using batch_foldl_checked ps ⟨0, 0, []⟩
    · simpa using batch_foldl_updated ps ⟨0, 0, []⟩
  · intro ps p hmem hsome
    exact batch_mark ps ⟨0, 0, []⟩ p hmem hsome

/-- C8, witness: in the 5-product example, the product after the failing
one is still scanned and marked. -/
theorem C8_witness :
    ScanEvent.markScraped 5 ∈
      (async_check_all_product_prices
        [⟨1, some 100, ScanOutcome.scraped ⟨some 100, "USD"⟩ false⟩,
         ⟨2, none, ScanOutcome.scraped ⟨some 5, "USD"⟩ false⟩,
         ⟨3, some 1, ScanOutcome.failScrape⟩,
         ⟨4, some 2, ScanOutcome.scraped ⟨some 3, "USD"⟩ false⟩,
         ⟨5, some 4, ScanOutcome.scraped ⟨some 4, "EUR"⟩ false⟩]).events :=
  C8_partial_failure_isolation.2.1 _
    ⟨5, some 4, ScanOutcome.scraped ⟨some 4, "EUR"⟩ false⟩ (by decide) (by decide)

/-! ### Claim C3 -/

lemma find?_map_price_update (pid : Nat) (np : ℚ) (cur : String) :
    ∀ (l : List ProductRow) (p : ProductRow),
      l.find? (fun q => q.id == pid) = some p →
      (l.map (fun q =>
          if q.id == pid then
            { q with current_price := some np, currency := cur }
          else q)).find? (fun q => q.id == pid) =
        some { p with current_price := some np, currency := cur } := by
  intro l
  induction l with
  | nil => intro p h; simp at h
  | cons a t ih =>
    intro p h
    by_cases ha : (a.id == pid) = true
    · simp only [List.find?_cons, ha, cond_true, Option.some.injEq] at h
      subst h
      rw [List.map_cons, if_pos ha]
      simp [List.find?_cons, ha]
    · simp only [List.find?_cons, ha, cond_false] at h
      rw [List.map_cons, if_neg ha]
      simp only [List.find?_cons, ha, cond_false]
      exact ih p h

/-- C3, confirmed: update_price on a missing product raises with the state
untouched; on an existing product it produces a single successor state in
which the product's current_price and currency are updated AND exactly
one history row is appended, the other products are untouched — the two
effects happen in the one committed transition, so no outcome has one
without the other. -/
theorem C3_update_price_atomic :
    (∀ (st : DBState) (pid : Nat) (np : ℚ) (cur : String),
        get_by_id st pid = none →
        update_price st pid np cur = .error "Product not found") ∧
    (∀ (st : DBState) (pid : Nat) (np : ℚ) (cur : String) (p : ProductRow),
        get_by_id st pid = some p →
        ∃ st', update_price st pid np cur = .ok st' ∧
          get_by_id st' pid =
            some { p with current_price := some np, currency := cur } ∧
          st'.history = st.history ++ [⟨pid, np, cur⟩] ∧
          st'.products.length = st.products.length ∧
          (∀ q ∈ st.products, (q.id == pid) = false → q ∈ st'.products)) := by
  constructor
  · intro st pid np cur h
    unfold update_price
    rw [h]
  · intro st pid np cur p h
    refine ⟨⟨st.products.map (fun q =>
        if q.id == pid then
          { q with current_price := some np, currency := cur }
        else q), st.history ++ [⟨pid, np, cur⟩]⟩, ?_, ?_, rfl, by simp, ?_⟩
    · unfold update_price
      rw [h]
    · exact find?_map_price_update pid np cur st.products p h
    · intro q hq hqid
      exact List.mem_map.mpr ⟨q, hq, by rw [if_neg (by simp [hqid])]⟩

/-- C3, witness: updating the price of the single stored product yields
the updated row and exactly one appended history row. -/
theorem C3_witness :
    ∃ st', update_price
        ⟨[⟨1, "https://demo.com/a", "t", none, some 5, "USD", "s", true⟩], []⟩
        1 7 "EUR" = .ok st' ∧
      get_by_id st' 1 =
        some ⟨1, "https://demo.com/a", "t", none, some 7, "EUR", "s", true⟩ ∧
      st'.history = [] ++ [⟨1, 7, "EUR"⟩] ∧
      st'.products.length =
        ([⟨1, "https://demo.com/a", "t", none, some 5, "USD", "s", true⟩] :
          List ProductRow).length ∧
      (∀ q ∈ ([⟨1, "https://demo.com/a", "t", none, some 5, "USD", "s", true⟩] :
          List ProductRow), (q.id == 1) = false → q ∈ st'.products) :=
  C3_update_price_atomic.2
    ⟨[⟨1, "https://demo.com/a", "t", none, some 5, "USD", "s", true⟩], []⟩
    1 7 "EUR" ⟨1, "https://demo.com/a", "t", none, some 5, "USD", "s", true⟩
    (by decide)

/-! ### Claim C10 -/

/-- C10, confirmed: when the normalized URL matches an existing product,
ProductService.create returns that product with the state unchanged — no
new product row, no history row, no field modified — before any of the
validation checks run, so no hypothesis about the payload's validity is
needed. -/
theorem C10_create_existing_url_frame :
    ∀ (st : DBState) (nextId : Nat) (d : ProductCreateData) (p : ProductRow),
      st.products.find? (fun q => q.url == normalize_url d.url) = some p →
      product_create st nextId d = .ok (st, p) := by
  intro st nextId d p h
  simp only [product_create, h]

/-- C10, witness: the payload violates every validation check (disallowed
domain, negative price, unsupported currency, empty store name) and its
URL differs from the stored one by case and surrounding whitespace, yet
create returns the stored product and the untouched state. -/
theorem C10_witness :
    product_create
        ⟨[⟨1, "https://x.com/a", "t", none, some 5, "USD", "s", true⟩], []⟩ 5
        ⟨"  HTTPS://X.COM/A  ", "t2", none, some (-5), "XYZ", ""⟩ =
      .ok (⟨[⟨1, "https://x.com/a", "t", none, some 5, "USD", "s", true⟩], []⟩,
           ⟨1, "https://x.com/a", "t", none, some 5, "USD", "s", true⟩) :=
  C10_create_existing_url_frame _ 5 _ _ (by decide)

/-! ### Claim C9 -/

/-- C9, counterexample.  A valid subscription (product target, only
price_threshold set) hit by an update request whose body explicitly
carries price_threshold = null ends with neither threshold set:
SubscriptionService.update applies provided fields without validation. -/
theorem C9_counterexample :
    subscriptionInvariant
        ⟨1, 7, some 3, SubscriptionType.product, none, some 10, none, true⟩ = true ∧
    update_subscription
        [⟨1, 7, some 3, SubscriptionType.product, none, some 10, none, true⟩] 1
        ⟨some none, none, none⟩ =
      .ok ([⟨1, 7, some 3, SubscriptionType.product, none, none, none, true⟩],
           ⟨1, 7, some 3, SubscriptionType.product, none, none, none, true⟩) ∧
    subscriptionInvariant
        ⟨1, 7, some 3, SubscriptionType.product, none, none, none, true⟩ = false := by
  decide

/-- a truthy optional rational is in particular non-null. -/
lemma truthyQ_isSome {o : Option ℚ} (h : truthyQ o = true) : o.isSome = true := by
  cases o with
  | none => simp [truthyQ] at h
  | some v => rfl

/-- a truthy optional string is in particular non-null. -/
lemma truthyStr_isSome {o : Option String} (h : truthyStr o = true) :
    o.isSome = true := by
  cases o with
  | none => simp [truthyStr] at h
  | some v => rfl

/-- C9, amended: creation (schema validation plus service) only ever
produces subscriptions satisfying the invariant and rejects violating
requests (a zero threshold counting as absent); soft-delete preserves the
invariant; an update always preserves the target-exclusivity half, and
preserves the whole invariant whenever it does not explicitly null a
threshold field — but an update explicitly nulling the only set threshold
violates it, as the counterexample shows. -/
theorem C9_invariant :
    (∀ (st : DBState) (nextId uid : Nat) (d : SubscriptionCreate)
        (s : Subscription),
        create_subscription_api st nextId uid d = .ok s →
        subscriptionInvariant s = true) ∧
    (∀ (subs : List Subscription) (sid : Nat),
        (∀ s ∈ subs, subscriptionInvariant s = true) →
        ∀ t ∈ (delete_subscription subs sid).1, subscriptionInvariant t = true) ∧
    (∀ (subs : List Subscription) (sid : Nat) (u : SubscriptionUpdate)
        (subs' : List Subscription) (s' : Subscription),
        update_subscription subs sid u = .ok (subs', s') →
        (∀ s ∈ subs, targetOk s = true) →
        ∀ t ∈ subs', targetOk t = true) ∧
    (∀ (subs : List Subscription) (sid : Nat) (u : SubscriptionUpdate)
        (subs' : List Subscription) (s' : Subscription),
        update_subscription subs sid u = .ok (subs', s') →
        u.price_threshold ≠ some none →
        u.percentage_threshold ≠ some none →
        (∀ s ∈ subs, subscriptionInvariant s = true) →
        ∀ t ∈ subs', subscriptionInvariant t = true) := by
  refine ⟨?_, ?_, ?_, ?_⟩
  · intro st nextId uid d s h
    obtain ⟨ty, pt, pct, purl, pidf, bn⟩ := d
    unfold create_subscription_api at h
    cases hv : validate_subscription_create ⟨ty, pt, pct, purl, pidf, bn⟩ with
    | error e => rw [hv] at h; cases h
    | ok _ =>
      rw [hv] at h
      unfold validate_subscription_create at hv
      unfold create_subscription_service at h
      cases ty with
      | product =>
        dsimp only at h hv
        have hA : ¬ ((!truthyNat pidf && !truthyStr purl) = true) := by
          intro hc; rw [if_pos hc] at hv; cases hv
        rw [if_neg hA] at hv
        have hB : ¬ (truthyStr bn = true) := by
          intro hc; rw [if_pos hc] at hv; cases hv
        rw [if_neg hB] at hv
        have hC : ¬ ((!truthyQ pt && !truthyQ pct) = true) := by
          intro hc; rw [if_pos hc] at hv; cases hv
        have hor : (pt.isSome || pct.isSome) = true := by
          cases hpt : truthyQ pt with
          | true => simp [truthyQ_isSome hpt]
          | false =>
            cases hpct : truthyQ pct with
            | true => simp [truthyQ_isSome hpct]
            | false => exact absurd (by simp [hpt, hpct]) hC
        by_cases hcond : (truthyStr purl && !truthyNat pidf) = true
        · rw [if_pos hcond] at h
          cases hfind : st.products.find?
              (fun p => p.url == normalize_url (purl.getD "")) with
          | none => rw [hfind] at h; cases h
          | some p =>
            rw [hfind] at h
            cases h
            simp [subscriptionInvariant, targetOk, hor]
        · rw [if_neg hcond] at h
          cases h
          have hpid : pidf.isSome = true := by
            by_cases hp : truthyNat pidf = true
            · cases pidf with
              | none => simp [truthyNat] at hp
              | some n => rfl
            · exfalso
              have hps : truthyStr purl = true := by
                cases hps' : truthyStr purl with
                | true => rfl
                | false =>
                  refine absurd ?_ hA
                  cases hn : truthyNat pidf with
                  | true => exact absurd hn hp
                  | false => simp [hn, hps']
              apply hcond
              cases hn : truthyNat pidf with
              | true => exact absurd hn hp
              | false => simp [hps, hn]
          simp [subscriptionInvariant, targetOk, hpid, hor]
      | brand =>
        dsimp only at h hv
        have hA : ¬ ((!truthyStr bn) = true) := by
          intro hc; rw [if_pos hc] at hv; cases hv
        rw [if_neg hA] at hv
        have hB : ¬ ((truthyNat pidf || truthyStr purl) = true) := by
          intro hc; rw [if_pos hc] at hv; cases hv
        rw [if_neg hB] at hv
        have hC : ¬ ((!truthyQ pt && !truthyQ pct) = true) := by
          intro hc; rw [if_pos hc] at hv; cases hv
        have hor : (pt.isSome || pct.isSome) = true := by
          cases hpt : truthyQ pt with
          | true => simp [truthyQ_isSome hpt]
          | false =>
            cases hpct : truthyQ pct with
            | true => simp [truthyQ_isSome hpct]
            | false => exact absurd (by simp [hpt, hpct]) hC
        have hbn : bn.isSome = true :=
          truthyStr_isSome (by simpa using hA)
        cases h
        simp [subscriptionInvariant, targetOk, hbn, hor]
  · intro subs sid hall t ht
    unfold delete_subscription at ht
    cases hfind : subs.find? (fun s => s.id == sid) with
    | none => rw [hfind] at ht; exact hall t ht
    | some s0 =>
      rw [hfind] at ht
      rcases List.mem_map.mp ht with ⟨s, hs, rfl⟩
      by_cases hid : (s.id == sid) = true
      · rw [if_pos hid]
        have := hall s hs
        simpa [subscriptionInvariant, targetOk] using this
      · rw [if_neg hid]
        exact hall s hs
  · intro subs sid u subs' s' h hall t ht
    unfold update_subscription at h
    cases hfind : subs.find? (fun s => s.id == sid) with
    | none => rw [hfind] at h; cases h
    | some s0 =>
      rw [hfind] at h
      cases h
      rcases List.mem_map.mp ht with ⟨s, hs, rfl⟩
      by_cases hid : (s.id == sid) = true
      · rw [if_pos hid]
        have := hall s0 (List.mem_of_find?_eq_some hfind)
        simpa [targetOk] using this
      · rw [if_neg hid]
        exact hall s hs
  · intro subs sid u subs' s' h hpt hpct hall t ht
    unfold update_subscription at h
    cases hfind : subs.find? (fun s => s.id == sid) with
    | none => rw [hfind] at h; cases h
    | some s0 =>
      rw [hfind] at h
      cases h
      rcases List.mem_map.mp ht with ⟨s, hs, rfl⟩
      by_cases hid : (s.id == sid) = true
      · rw [if_pos hid]
        have hinv := hall s0 (List.mem_of_find?_eq_some hfind)
        simp only [subscriptionInvariant, Bool.and_eq_true, Bool.or_eq_true]
          at hinv ⊢
        refine ⟨by simpa [targetOk] using hinv.1, ?_⟩
        have hth := hinv.2
        cases hu1 : u.price_threshold with
        | none =>
          cases hu2 : u.percentage_threshold with
          | none => simpa [hu1, hu2] using hth
          | some w =>
            cases w with
            | none => exact absurd hu2 hpct
            | some wv => simp [hu1, hu2]
        | some w =>
          cases w with
          | none => exact absurd hu1 hpt
          | some wv => simp [hu1]
      · rw [if_neg hid]
        exact hall s hs

/-- C9, witness: creating a product subscription with product_id 3 and
price_threshold 10 through validation and service yields a subscription
satisfying the invariant. -/
theorem C9_witness :
    subscriptionInvariant
      ⟨1, 7, some 3, SubscriptionType.product, none, some 10, none, true⟩ = true :=
  C9_invariant.1 ⟨[], []⟩ 1 7
    ⟨SubscriptionType.product, some 10, none, none, some 3, none⟩ _ (by decide)

lemma find?_some_pred {α : Type} (p : α → Bool) :
    ∀ (l : List α) (a : α), l.find? p = some a → p a = true := by
  intro l
  induction l with
  | nil => intro a h; cases h
  | cons x t ih =>
    intro a h
    by_cases hx : p x = true
    · simp only [List.find?_cons, hx, cond_true, Option.some.injEq] at h
      subst h; exact hx
    · have hx' : p x = false := by simpa using hx
      simp only [List.find?_cons, hx', cond_false] at h
      exact ih a h

/-! ### Claim C7 -/

/-- C7, counterexample.  Only the demo adapter lower-cases the URL before
matching; the other predicates are case-sensitive substring tests
(`"ebay.com" in url`).  For a mixed-case eBay URL the router raises
no-adapter-found, while the claimed case-normalized predicate accepts. -/
theorem C7_counterexample :
    get_scraper_for_url "https://www.EBAY.com/itm/1" = .error "No scraper found" ∧
    claimedCanHandle ScraperId.ebay "https://www.EBAY.com/itm/1" = true := by
  decide

/-- C7, amended: the router returns the first adapter in registration
order (demo, webscraper_io, ebay, etsy) whose can_handle_url predicate
accepts — the predicates are substring matches, of which only the demo
adapter's strips and lower-cases the URL first — it raises
no-adapter-found exactly when no registered adapter accepts, and every
successful result is a registered adapter that accepted (so there is no
generic fallback). -/
theorem C7_router_first_match :
    (∀ url : String,
        get_scraper_for_url url = .error "No scraper found" ↔
          ∀ a ∈ SCRAPERS, can_handle_url a url = false) ∧
    (∀ (url : String) (a : ScraperId),
        can_handle_url a url = true →
        (∀ b : ScraperId, scraperIdx b < scraperIdx a →
          can_handle_url b url = false) →
        get_scraper_for_url url = .ok a) ∧
    (∀ (url : String) (a : ScraperId),
        get_scraper_for_url url = .ok a →
        a ∈ SCRAPERS ∧ can_handle_url a url = true) := by
  refine ⟨?_, ?_, ?_⟩
  · intro url
    unfold get_scraper_for_url
    cases hf : SCRAPERS.find? (fun a => can_handle_url a url) with
    | none =>
      simp only [true_iff]
      intro a ha
      have := List.find?_eq_none.mp hf a ha
      simpa using this
    | some a =>
      constructor
      · intro he; cases he
      · intro hall
        have hmem := List.mem_of_find?_eq_some hf
        have hpred := find?_some_pred _ _ _ hf
        rw [hall a hmem] at hpred
        cases hpred
  · intro url a h1 h2
    cases a with
    | demo =>
      unfold get_scraper_for_url SCRAPERS
      simp [List.find?_cons, h1]
    | webScraper =>
      have hd := h2 .demo (by simp [scraperIdx])
      unfold get_scraper_for_url SCRAPERS
      simp [List.find?_cons, h1, hd]
    | ebay =>
      have hd := h2 .demo (by simp [scraperIdx])
      have hw := h2 .webScraper (by simp [scraperIdx])
      unfold get_scraper_for_url SCRAPERS
      simp [List.find?_cons, h1, hd, hw]
    | etsy =>
      have hd := h2 .demo (by simp [scraperIdx])
      have hw := h2 .webScraper (by simp [scraperIdx])
      have he := h2 .ebay (by simp [scraperIdx])
      unfold get_scraper_for_url SCRAPERS
      simp [List.find?_cons, h1, hd, hw, he]
  · intro url a h
    unfold get_scraper_for_url at h
    cases hf : SCRAPERS.find? (fun a => can_handle_url a url) with
    | none => rw [hf] at h; cases h
    | some b =>
      rw [hf] at h
      cases h
      exact ⟨List.mem_of_find?_eq_some hf,
        find?_some_pred (fun x => can_handle_url x url) SCRAPERS a hf⟩

/-- C7, witness: a lower-case eBay item URL resolves to the eBay adapter
as the first accepting adapter in registration order. -/
theorem C7_witness :
    get_scraper_for_url "https://www.ebay.com/itm/1" = .ok ScraperId.ebay := by
  apply C7_router_first_match.2.1
  · decide
  · intro b hb
    cases b with
    | demo => decide
    | webScraper => decide
    | ebay => exact absurd hb (by decide)
    | etsy => exact absurd hb (by decide)

/-! ### Claim C6 -/

lemma mem_dropWhile_iff {p : Char → Bool} {c : Char} (hc : p c = false) :
    ∀ l : List Char, c ∈ l.dropWhile p ↔ c ∈ l := by
  intro l
  induction l with
  | nil => simp
  | cons a t ih =>
    by_cases ha : p a = true
    · have hne : c ≠ a := fun hca => by rw [hca, ha] at hc; cases hc
      rw [List.dropWhile_cons_of_pos ha]
      simp [List.mem_cons, hne, ih]
    · rw [List.dropWhile_cons_of_neg ha]

lemma mem_pyStrip_iff {c : Char} (hc : pySpace c = false) (l : List Char) :
    c ∈ pyStrip l ↔ c ∈ l := by
  unfold pyStrip
  rw [List.mem_reverse, mem_dropWhile_iff hc, List.mem_reverse,
    mem_dropWhile_iff hc]

lemma mem_clean_iff {c : Char} (hc : pySpace c = false) (hcomma : c ≠ ',')
    (l : List Char) : c ∈ cleanPriceText l ↔ c ∈ l := by
  have hsp : c ≠ ' ' := by
    rintro rfl; simp [pySpace] at hc
  have hnl : c ≠ '\n' := by
    rintro rfl; simp [pySpace] at hc
  unfold cleanPriceText
  constructor
  · intro h
    rcases List.mem_map.mp h with ⟨d, hd, hfd⟩
    have hdc : d = c := by
      by_cases hdn : d = '\n'
      · rw [if_pos hdn] at hfd; exact absurd hfd.symm hsp
      · rw [if_neg hdn] at hfd; exact hfd
    subst hdc
    exact (mem_pyStrip_iff hc l).mp (List.mem_of_mem_filter hd)
  · intro h
    refine List.mem_map.mpr ⟨c, ?_, if_neg hnl⟩
    exact List.mem_filter.mpr ⟨(mem_pyStrip_iff hc l).mpr h, by simp [hcomma]⟩

lemma find?_congr {α : Type} {p q : α → Bool} :
    ∀ l : List α, (∀ x ∈ l, p x = q x) → l.find? p = l.find? q := by
  intro l
  induction l with
  | nil => intro _; rfl
  | cons a t ih =>
    intro h
    have ha := h a (List.mem_cons_self a t)
    rw [List.find?_cons, List.find?_cons, ha,
      ih (fun x hx => h x (List.mem_cons_of_mem a hx))]

lemma findCurrency_eq (text : List Char) :
    ∀ cs : List (Char × String),
      findCurrency cs text = cs.find? (fun p => decide (p.1 ∈ text)) := by
  intro cs
  induction cs with
  | nil => rfl
  | cons a t ih =>
    obtain ⟨sym, code⟩ := a
    unfold findCurrency
    rw [List.find?_cons]
    by_cases h : sym ∈ text <;> simp [h, ih]

lemma extractNumber_isSome :
    ∀ l : List Char, (extractNumber l).isSome = l.any Char.isDigit := by
  intro l
  induction l with
  | nil => rfl
  | cons c t ih =>
    by_cases h : c.isDigit = true
    · simp [extractNumber, h, List.any_cons]
    · simp [extractNumber, h, List.any_cons, ih]

lemma digit_not_pySpace {c : Char} (h : Char.isDigit c = true) :
    pySpace c = false := by
  cases hsp : pySpace c
  · rfl
  · exfalso
    unfold pySpace at hsp
    simp only [Bool.or_eq_true, decide_eq_true_eq] at hsp
    rcases hsp with ((((rfl | rfl) | rfl) | rfl) | rfl) | rfl <;>
      exact absurd h (by decide)

lemma digit_ne_comma {c : Char} (h : Char.isDigit c = true) : c ≠ ',' := by
  rintro rfl; exact absurd h (by decide)

lemma any_eq_of_mem_iff {p : Char → Bool} {l1 l2 : List Char}
    (h : ∀ c, p c = true → (c ∈ l1 ↔ c ∈ l2)) : l1.any p = l2.any p := by
  rw [Bool.eq_iff_iff, List.any_eq_true, List.any_eq_true]
  constructor
  · rintro ⟨c, hc, hp⟩; exact ⟨c, (h c hp).mp hc, hp⟩
  · rintro ⟨c, hc, hp⟩; exact ⟨c, (h c hp).mpr hc, hp⟩

lemma any_digit_clean (l : List Char) :
    (cleanPriceText l).any Char.isDigit = l.any Char.isDigit :=
  any_eq_of_mem_iff fun _ hc =>
    mem_clean_iff (digit_not_pySpace hc) (digit_ne_comma hc) l

lemma any_digit_pyStrip (l : List Char) :
    (pyStrip l).any Char.isDigit = l.any Char.isDigit :=
  any_eq_of_mem_iff fun _ hc => mem_pyStrip_iff (digit_not_pySpace hc) l

lemma any_digit_filter_ne {sym : Char} (hsym : Char.isDigit sym = false)
    (l : List Char) :
    (l.filter (fun c => c ≠ sym)).any Char.isDigit = l.any Char.isDigit := by
  refine any_eq_of_mem_iff fun c hc => ?_
  have hne : c ≠ sym := fun hcs => by rw [hcs, hsym] at hc; cases hc
  constructor
  · exact List.mem_of_mem_filter
  · intro h
    exact List.mem_filter.mpr ⟨h, by simp [hne]⟩

lemma currency_symbols_props :
    ∀ x ∈ currencySymbols,
      pySpace x.1 = false ∧ x.1 ≠ ',' ∧ Char.isDigit x.1 = false := by
  decide

/-- C6, counterexample.  In "€1 $2" the first currency symbol found in the
text is €, so the claim assigns EUR; the code iterates the symbol map in
insertion order, finds $ first, and returns USD. -/
theorem C6_counterexample :
    parse_price "€1 $2" = (some 1, "USD") ∧
    leftmostSymbolCurrency "€1 $2".data = "EUR" := by
  constructor
  · have h : parse_price "€1 $2" =
        (some (((1 : ℕ) : ℚ) + ((0 : ℕ) : ℚ) / ((10 : ℚ) ^ (0 : ℕ))), "USD") :=
      rfl
    rw [h]
    norm_num
  · decide

/-- C6, amended: parse_price is total (never raises); the four worked
examples hold; the currency is the first symbol in the fixed map order
$, €, £, ¥, ₽ that occurs anywhere in the text (default USD), not the
leftmost symbol of the text; and a numeric amount is returned exactly
when the input contains a digit. -/
theorem C6_parse_price :
    parse_price "$1,299.00" = (some 1299, "USD") ∧
    parse_price "€50" = (some 50, "EUR") ∧
    parse_price "" = (none, "USD") ∧
    parse_price "no digits here" = (none, "USD") ∧
    (∀ s : String, (parse_price s).2 = priorityCurrency s.data) ∧
    (∀ s : String, (parse_price s).1.isSome = s.data.any Char.isDigit) := by
  refine ⟨?_, ?_, rfl, rfl, ?_, ?_⟩
  · have h : parse_price "$1,299.00" =
        (some (((1299 : ℕ) : ℚ) + ((0 : ℕ) : ℚ) / ((10 : ℚ) ^ (2 : ℕ))), "USD") :=
      rfl
    rw [h]
    norm_num
  · have h : parse_price "€50" =
        (some (((50 : ℕ) : ℚ) + ((0 : ℕ) : ℚ) / ((10 : ℚ) ^ (0 : ℕ))), "EUR") :=
      rfl
    rw [h]
    norm_num
  · intro s
    unfold parse_price
    by_cases he : s.data.isEmpty = true
    · rw [if_pos he]
      rw [List.isEmpty_iff.mp he]
      rfl
    · rw [if_neg he]
      have hcg : findCurrency currencySymbols (cleanPriceText s.data) =
          currencySymbols.find? (fun p => decide (p.1 ∈ s.data)) := by
        rw [findCurrency_eq]
        apply find?_congr
        intro x hx
        rcases currency_symbols_props x hx with ⟨hx1, hx2, _⟩
        rw [decide_eq_decide]
        exact mem_clean_iff hx1 hx2 s.data
      dsimp only
      cases hf : findCurrency currencySymbols (cleanPriceText s.data) with
      | none =>
        dsimp only
        unfold priorityCurrency
        rw [← hcg, hf]
        rfl
      | some pr =>
        obtain ⟨sym, code⟩ := pr
        dsimp only
        unfold priorityCurrency
        rw [← hcg, hf]
        rfl
  · intro s
    unfold parse_price
    by_cases he : s.data.isEmpty = true
    · rw [if_pos he]
      rw [List.isEmpty_iff.mp he]
      rfl
    · rw [if_neg he]
      dsimp only
      cases hf : findCurrency currencySymbols (cleanPriceText s.data) with
      | none =>
        dsimp only
        rw [extractNumber_isSome, any_digit_clean]
      | some pr =>
        obtain ⟨sym, code⟩ := pr
        dsimp only
        have hmem : (sym, code) ∈ currencySymbols := by
          rw [findCurrency_eq] at hf
          exact List.mem_of_find?_eq_some hf
        rcases currency_symbols_props _ hmem with ⟨_, _, hdig⟩
        rw [extractNumber_isSome, any_digit_pyStrip, any_digit_filter_ne hdig,
          any_digit_clean]

end SmartCatcher
